import Mathlib

/-!
Shallow embedding of the admission-prediction service
(`src/service_batch.py`, `src/models/input_model.py`, `src/auth/jwt_auth.py`)
and proofs about its batch-job lifecycle, validation and authentication gate.

Conventions of the embedding:
* Python `float` field values are modelled as `ℚ` (every bound check in the
  code is an order comparison, faithfully represented on `ℚ`); the `research`
  field is an `int` in the code and is modelled as `ℤ`.
* The sklearn model (`batch_model.predict` / `single_model.predict`) is an
  external collaborator; it is modelled as a parameter
  `pred : RawInput → Except String ℚ` applied row-wise (sklearn `predict`
  maps each row of the feature matrix to one scalar; any exception it raises
  aborts the whole call, which `Except` captures).
* Job timestamps use an abstract `Nat` clock passed in as a parameter.
-/

/-- One record of the seven numeric request fields, before any validation
(the keyword arguments passed to `AdmissionInput(**inp)` and the arguments
of the `/predict` endpoint). -/
structure RawInput where
  gre_score : ℚ
  toefl_score : ℚ
  university_rating : ℚ
  sop : ℚ
  lor : ℚ
  cgpa : ℚ
  research : ℤ
  deriving DecidableEq, Repr

/-- The pydantic `Field(..., ge, le)` bounds of `AdmissionInput`
(`src/models/input_model.py`, lines 13-21): constructing
`AdmissionInput(**inp)` succeeds exactly when this returns `true`. -/
def validInput (r : RawInput) : Bool :=
  decide (0 ≤ r.gre_score) && decide (r.gre_score ≤ 340) &&
  decide (0 ≤ r.toefl_score) && decide (r.toefl_score ≤ 120) &&
  decide (1 ≤ r.university_rating) && decide (r.university_rating ≤ 5) &&
  decide (1 ≤ r.sop) && decide (r.sop ≤ 5) &&
  decide (1 ≤ r.lor) && decide (r.lor ≤ 5) &&
  decide (0 ≤ r.cgpa) && decide (r.cgpa ≤ 10) &&
  decide (0 ≤ r.research) && decide (r.research ≤ 1)

/-- Job state machine states, the `"pending" | "processing" | "completed" |
"failed"` status strings of `service_batch.py`. -/
inductive JobStatus where
  | pending
  | processing
  | completed
  | failed
  deriving DecidableEq, Repr

/-- A job record: the dict stored in the module-level `jobs` map
(`service_batch.py`, lines 134-140 for creation, 46/73/80 for updates).
`error` is absent (`none`) until the failure branch writes it;
`completed_at` is absent until a terminal transition. -/
structure Job where
  status : JobStatus
  results : List ℚ
  error : Option String
  inputs : List RawInput
  created_at : Nat
  completed_at : Option Nat
  deriving DecidableEq, Repr

/-- The record inserted on submission (`service_batch.py`, lines 134-140). -/
def Job.create (t0 : Nat) (ins : List RawInput) : Job :=
  { status := .pending
    results := []
    error := none
    inputs := ins
    created_at := t0
    completed_at := none }

/-- The external predictor: one scalar per feature row, or an exception. -/
def Predictor : Type := RawInput → Except String ℚ

/-- `mapM` over `Except`, written by explicit recursion so that proofs can
unfold it: models a Python list comprehension in which the first raised
exception aborts the whole computation. -/
def exceptMapM (f : α → Except String β) : List α → Except String (List β)
  | [] => .ok []
  | a :: as =>
    match f a with
    | .error e => .error e
    | .ok b =>
      match exceptMapM f as with
      | .error e => .error e
      | .ok bs => .ok (b :: bs)

/-- Constructing `AdmissionOutput(chance_of_admit=p)`
(`src/models/input_model.py`, lines 37-39): pydantic validates
`ge=0, le=1` and raises otherwise. -/
def mkAdmissionOutput (p : ℚ) : Except String ℚ :=
  if 0 ≤ p ∧ p ≤ 1 then .ok p else .error "chance_of_admit out of range"

/-- The body of the `try` block of `process_batch_job`
(`service_batch.py`, lines 49-70): row-wise prediction over the feature
matrix, then conversion of every prediction to an `AdmissionOutput`. -/
def runBatchPrediction (pred : Predictor) (ins : List RawInput) :
    Except String (List ℚ) :=
  match exceptMapM pred ins with
  | .error e => .error e
  | .ok preds => exceptMapM mkAdmissionOutput preds

/-- The job record after `process_batch_job` finishes
(`service_batch.py`, lines 43-83): status `completed` with the results on
success, status `failed` with the stringified exception on any failure.
The failure branch leaves `results` untouched (it stays `[]`). -/
def processedJob (pred : Predictor) (tEnd : Nat) (j : Job) : Job :=
  let j1 := { j with status := JobStatus.processing }
  match runBatchPrediction pred j1.inputs with
  | .ok rs => { j1 with status := .completed, results := rs, completed_at := some tEnd }
  | .error e => { j1 with status := .failed, error := some e, completed_at := some tEnd }

/-- The sequence of store snapshots of one job, in write order: the record
written by `batch_submit` (status `pending`), the record after
`process_batch_job`'s first locked write (status `processing`,
`service_batch.py` lines 46-47), and the record after its terminal locked
write (lines 73-76 or 80-83).  These are the only writes to a job in the
whole program, so any poll of the job observes one of these three states,
and polls observe them in this order. -/
def jobTrace (pred : Predictor) (t0 tEnd : Nat) (ins : List RawInput) : List Job :=
  let j0 := Job.create t0 ins
  [j0, { j0 with status := JobStatus.processing }, processedJob pred tEnd j0]

example :
    jobTrace (fun _ => .ok (1/2)) 0 1 [] =
      [Job.create 0 [],
       { Job.create 0 [] with status := .processing },
       { Job.create 0 [] with status := .completed, results := [], completed_at := some 1 }] := by
  decide

/-! ## HTTP responses -/

/-- The distinguishable HTTP responses the service produces on the routes
the claims are about. -/
inductive HttpResponse where
  /-- `JSONResponse(..., status_code=401)` from the middleware, or
  `HTTPException(status_code=401)` from `get_current_user`. -/
  | unauthorized (msg : String)
  /-- `JSONResponse({"error": ...}, status_code=400)` from `batch_submit`. -/
  | badRequest (msg : String)
  /-- `HTTPException(status_code=404, detail="Job not found")`. -/
  | notFound
  /-- The 200 response of `batch_submit` (lines 147-151). -/
  | submitOk (job_id : String) (status : JobStatus) (message : String)
  /-- The 200 response of `batch_status_get` (lines 165-168). -/
  | statusOk (job_id : String) (status : JobStatus)
  /-- The 202 response of `batch_results_get` (lines 200-207). -/
  | stillWorking (job_id : String) (status : JobStatus) (message : String)
  /-- The 500 response of `batch_results_get` (lines 210-217). -/
  | jobFailed (job_id : String) (status : JobStatus) (error : String)
  /-- The 200 response of `batch_results_get` (lines 192-197). -/
  | resultsOk (job_id : String) (status : JobStatus) (results : List ℚ) (total : Nat)
  /-- The 200 response of `predict` (line 117). -/
  | predictOk ( chance_of_admit : ℚ)
  deriving DecidableEq, Repr

/-- The HTTP status code of each response. -/
def statusCode : HttpResponse → Nat
  | .unauthorized _ => 401
  | .badRequest _ => 400
  | .notFound => 404
  | .submitOk _ _ _ => 200
  | .statusOk _ _ => 200
  | .stillWorking _ _ _ => 202
  | .jobFailed _ _ _ => 500
  | .resultsOk _ _ _ _ => 200
  | .predictOk _ => 200

/-! ## Batch submission (`batch_submit`, `service_batch.py` lines 119-151) -/

/-- The validation performed by `batch_submit`'s `try` block (lines 123-128):
each element must construct an `AdmissionInput` (field bounds), and
`BatchAdmissionInput(inputs=...)` requires `min_length=1` and at most 1000
records (`src/models/input_model.py`, lines 24-34).  Any raised
`ValueError`/`ValidationError` becomes the `error` case. -/
def validateBatch (raws : List RawInput) : Except String (List RawInput) :=
  if raws.all validInput then
    if raws.length = 0 then .error "List should have at least 1 item"
    else if raws.length > 1000 then .error "Batch size cannot exceed 1000 records"
    else .ok raws
  else .error "input validation error"

/-- The in-memory job store: the module-level `jobs` dict, most recent
insertion first. -/
def JobStore : Type := List (String × Job)

/-- `jobs[job_id]` lookup (under `jobs_lock`). -/
def lookupJob (store : JobStore) (id : String) : Option Job :=
  (List.find? (fun p => p.1 = id) store).map (fun p => p.2)

/-- `batch_submit` (lines 119-151): on validation failure, return the 400
response and leave the store untouched (the `uuid` is generated only after
validation succeeds); on success, insert the fresh `pending` record and
return the 200 submission response.  The background thread's effect on the
record is `jobTrace`. -/
def batchSubmit (store : JobStore) (freshId : String) (t0 : Nat)
    (raws : List RawInput) : HttpResponse × JobStore :=
  match validateBatch raws with
  | .error e => (.badRequest e, store)
  | .ok ins =>
    (.submitOk freshId .pending "Batch job submitted successfully",
     (freshId, Job.create t0 ins) :: store)

/-- Whether a response is the successful submission response. -/
def isSubmitOk : HttpResponse → Bool
  | .submitOk _ _ _ => true
  | _ => false

/-! ## Single predict (`predict`, `service_batch.py` lines 107-117)

The endpoint's signature is seven plain numeric parameters; it builds the
feature row and returns `{"chance_of_admit": float(prediction[0])}`
directly.  No `AdmissionInput` is constructed, so no field-bound validation
happens on this path, and no `AdmissionOutput` is constructed, so the
returned value is the raw predictor output.  The single-model predictor is
modelled as a total function (a predictor exception would surface as an
unhandled 500, which no claim concerns). -/

/-- The `/predict` handler body. -/
def predictEndpoint (singlePred : RawInput → ℚ) (r : RawInput) : HttpResponse :=
  .predictOk (singlePred r)

/-! ## Authentication (`src/auth/jwt_auth.py`) -/

/-- The decoded, verified content of a bearer token (`AuthClaim`): the
payload dict returned by `jwt.decode`. -/
structure AuthClaim where
  sub : String
  exp : Nat
  deriving DecidableEq, Repr

/-- What `jwt.decode(token, JWT_SECRET, algorithms=[...])` can do:
return the payload, raise `ExpiredSignatureError`, or raise any other
`InvalidTokenError`. -/
inductive VerifyResult where
  | ok (payload : AuthClaim)
  | expired
  | invalid
  deriving DecidableEq, Repr

/-- The data a token string carries as far as `jwt.decode` is concerned:
its claims and whether its structure and signature check out. -/
structure TokenData where
  sub : String
  exp : Nat
  sigValid : Bool
  deriving DecidableEq, Repr

/-- Model of `verify_token` (`jwt_auth.py` lines 26-27), i.e. of
`jwt.decode` with the configured secret: a structurally or
signature-invalid token raises `InvalidTokenError`; otherwise the `exp`
claim is checked against the current time (expired when `exp ≤ now`) and
raises `ExpiredSignatureError`; otherwise the payload is returned.
The payload — in particular `sub` — is never inspected. -/
def verify_token (now : Nat) (t : TokenData) : VerifyResult :=
  if t.sigValid = false then .invalid
  else if t.exp ≤ now then .expired
  else .ok { sub := t.sub, exp := t.exp }

/-- The default configured identity (`API_USERNAME`, `jwt_auth.py` line 13). -/
def API_USERNAME : String := "admin"

/-- `PUBLIC_PATHS` (`jwt_auth.py` line 16). -/
def PUBLIC_PATHS : List String :=
  ["/login", "/healthz", "/docs", "/openapi.json", "/metrics", "/readyz", "/livez"]

/-- `longer.startswith(pat)` on character lists (Python `str.startswith`). -/
def strStartsWith : List Char → List Char → Bool
  | _, [] => true
  | [], _ :: _ => false
  | c :: cs, p :: ps => c = p && strStartsWith cs ps

/-- `any(request.url.path.startswith(p) for p in PUBLIC_PATHS)`
(`jwt_auth.py` line 34). -/
def isPublicPath (path : List Char) : Bool :=
  PUBLIC_PATHS.any (fun p => strStartsWith path p.toList)

/-- `auth_header.split(" ")[1]` (`jwt_auth.py` line 41); the index is
in range because the caller has checked the `"Bearer "` form. -/
def bearerToken (h : List Char) : List Char :=
  (List.splitOn ' ' h).getD 1 []

/-- The literal `"Bearer "` of `auth_header.startswith("Bearer ")`
(`jwt_auth.py` line 38). -/
def bearerMarker : List Char := "Bearer ".toList

/-- `JWTAuthMiddleware.dispatch` (`jwt_auth.py` lines 32-49), up to the
point where it either short-circuits with a 401 response (`some resp`) or
lets the request through to the inner application (`none`).  The token
verifier is a parameter standing for `verify_token` at the current time:
`fun tok => verify_token now (decode tok)`. -/
def middlewareCheck (verify : List Char → VerifyResult) (path : List Char)
    (header : Option (List Char)) : Option HttpResponse :=
  if isPublicPath path then none
  else
    match header with
    | none => some (.unauthorized "Missing or invalid token")
    | some h =>
      if strStartsWith h bearerMarker then
        match verify (bearerToken h) with
        | .ok _ => none
        | .expired => some (.unauthorized "Token expired")
        | .invalid => some (.unauthorized "Invalid token")
      else some (.unauthorized "Missing or invalid token")

/-- `get_current_user` (`service_batch.py` lines 33-40): re-verifies the
bearer token of the request; any exception from `verify_token` becomes a
401 `HTTPException`. -/
def getCurrentUser (verify : List Char → VerifyResult) (token : List Char) :
    Except HttpResponse AuthClaim :=
  match verify token with
  | .ok payload => .ok payload
  | _ => .error (.unauthorized "Invalid or expired token")

/-! ## GET endpoints (`service_batch.py` lines 155-222) -/

/-- `batch_status_get`'s handler body (lines 160-168), after the auth
dependency has succeeded. -/
def batchStatusGet (store : JobStore) (id : String) : HttpResponse :=
  match lookupJob store id with
  | none => .notFound
  | some j => .statusOk id j.status

/-- `batch_results_get`'s handler body (lines 174-222), after the auth
dependency has succeeded.  The code's final `else` branch (unknown status
string) is unreachable here because `JobStatus` enumerates exactly the
strings the program ever stores. -/
def batchResultsGet (store : JobStore) (id : String) : HttpResponse :=
  match lookupJob store id with
  | none => .notFound
  | some j =>
    match j.status with
    | .completed => .resultsOk id .completed j.results j.results.length
    | .pending => .stillWorking id .pending "Job is still processing"
    | .processing => .stillWorking id .processing "Job is still processing"
    | .failed => .jobFailed id .failed (j.error.getD "Unknown error")

/-- The request path of `GET /batch/status/{job_id}`. -/
def statusPath (id : String) : List Char :=
  "/batch/status/".toList ++ id.toList

/-- The request path of `GET /batch/results/{job_id}`. -/
def resultsPath (id : String) : List Char :=
  "/batch/results/".toList ++ id.toList

/-- The full pipeline of a `GET /batch/status/{job_id}` request: the ASGI
`JWTAuthMiddleware` runs first (it wraps the whole service, including the
mounted FastAPI app); if it passes, FastAPI resolves the
`Depends(get_current_user)` dependency on the same header; only then does
the handler body run.  The `none`-header inner branch is unreachable
(the middleware already rejected such requests); the code's `HTTPBearer`
would reject there, modelled as the same 401. -/
def statusRequest (verify : List Char → VerifyResult) (header : Option (List Char))
    (store : JobStore) (id : String) : HttpResponse :=
  match middlewareCheck verify (statusPath id) header with
  | some resp => resp
  | none =>
    match header with
    | none => .unauthorized "Missing or invalid token"
    | some h =>
      match getCurrentUser verify (bearerToken h) with
      | .error resp => resp
      | .ok _ => batchStatusGet store id

/-- The full pipeline of a `GET /batch/results/{job_id}` request
(same shape as `statusRequest`). -/
def resultsRequest (verify : List Char → VerifyResult) (header : Option (List Char))
    (store : JobStore) (id : String) : HttpResponse :=
  match middlewareCheck verify (resultsPath id) header with
  | some resp => resp
  | none =>
    match header with
    | none => .unauthorized "Missing or invalid token"
    | some h =>
      match getCurrentUser verify (bearerToken h) with
      | .error resp => resp
      | .ok _ => batchResultsGet store id

/-- A job record is reachable when it is one of the store snapshots of some
submitted job. -/
def ReachableJob (j : Job) : Prop :=
  ∃ pred t0 tEnd ins, j ∈ jobTrace pred t0 tEnd ins

example : statusCode (batchResultsGet [] "x") = 404 := by decide

example :
    middlewareCheck (fun _ => .invalid) "/login".toList none = none := by decide

/-! ## Helper lemmas -/

theorem exceptMapM_ok_spec {α β : Type} {f : α → Except String β} :
    ∀ {xs : List α} {ys : List β}, exceptMapM f xs = Except.ok ys →
      ys.length = xs.length ∧
      ∀ i (h1 : i < xs.length) (h2 : i < ys.length),
        f (xs.get ⟨i, h1⟩) = Except.ok (ys.get ⟨i, h2⟩) := by
  intro xs
  induction xs with
  | nil =>
    intro ys h
    simp only [exceptMapM, Except.ok.injEq] at h
    subst h
    exact ⟨rfl, fun i h1 _ => absurd h1 (Nat.not_lt_zero i)⟩
  | cons a as ih =>
    intro ys h
    simp only [exceptMapM] at h
    cases hfa : f a with
    | error e => rw [hfa] at h; simp at h
    | ok b =>
      rw [hfa] at h
      cases hrec : exceptMapM f as with
      | error e => rw [hrec] at h; simp at h
      | ok bs =>
        rw [hrec] at h
        simp only [Except.ok.injEq] at h
        subst h
        obtain ⟨hlen, hget⟩ := ih hrec
        refine ⟨by simp [hlen], ?_⟩
        intro i h1 h2
        cases i with
        | zero => simpa using hfa
        | succ n =>
          simp only [List.get_cons_succ]
          exact hget n (Nat.lt_of_succ_lt_succ h1) (Nat.lt_of_succ_lt_succ h2)

theorem exceptMapM_ok_mem {α β : Type} {f : α → Except String β} :
    ∀ {xs : List α} {ys : List β}, exceptMapM f xs = Except.ok ys →
      ∀ y ∈ ys, ∃ x ∈ xs, f x = Except.ok y := by
  intro xs
  induction xs with
  | nil =>
    intro ys h
    simp only [exceptMapM, Except.ok.injEq] at h
    subst h
    simp
  | cons a as ih =>
    intro ys h
    simp only [exceptMapM] at h
    cases hfa : f a with
    | error e => rw [hfa] at h; simp at h
    | ok b =>
      rw [hfa] at h
      cases hrec : exceptMapM f as with
      | error e => rw [hrec] at h; simp at h
      | ok bs =>
        rw [hrec] at h
        simp only [Except.ok.injEq] at h
        subst h
        intro y hy
        rcases List.mem_cons.mp hy with hy | hy
        · exact ⟨a, List.mem_cons_self a as, hy ▸ hfa⟩
        · obtain ⟨x, hx, hfx⟩ := ih hrec y hy
          exact ⟨x, List.mem_cons_of_mem a hx, hfx⟩

theorem mkAdmissionOutput_ok {p q : ℚ} (h : mkAdmissionOutput p = Except.ok q) :
    q = p ∧ 0 ≤ p ∧ p ≤ 1 := by
  unfold mkAdmissionOutput at h
  split at h
  · simp only [Except.ok.injEq] at h
    exact ⟨h.symm, by assumption⟩
  · exact absurd h (by simp)

theorem runBatchPrediction_ok_spec {pred : Predictor} {ins : List RawInput}
    {rs : List ℚ} (h : runBatchPrediction pred ins = Except.ok rs) :
    rs.length = ins.length ∧
    (∀ i (h1 : i < ins.length) (h2 : i < rs.length),
      pred (ins.get ⟨i, h1⟩) = Except.ok (rs.get ⟨i, h2⟩)) ∧
    (∀ q ∈ rs, 0 ≤ q ∧ q ≤ 1) := by
  unfold runBatchPrediction at h
  cases hp : exceptMapM pred ins with
  | error e => rw [hp] at h; simp at h
  | ok preds =>
    rw [hp] at h
    obtain ⟨hl1, hg1⟩ := exceptMapM_ok_spec hp
    obtain ⟨hl2, hg2⟩ := exceptMapM_ok_spec h
    refine ⟨hl2.trans hl1, ?_, ?_⟩
    · intro i h1 h2
      have hip : i < preds.length := hl1 ▸ h1
      have hmk := hg2 i hip h2
      obtain ⟨heq, _, _⟩ := mkAdmissionOutput_ok hmk
      rw [heq]
      exact hg1 i h1 hip
    · intro q hq
      obtain ⟨p, _, hpq⟩ := exceptMapM_ok_mem h q hq
      obtain ⟨heq, hlo, hhi⟩ := mkAdmissionOutput_ok hpq
      exact ⟨heq ▸ hlo, heq ▸ hhi⟩

theorem strStartsWith_append_false :
    ∀ (ps xs ys : List Char), ps.length ≤ xs.length →
      strStartsWith xs ps = false → strStartsWith (xs ++ ys) ps = false := by
  intro ps
  induction ps with
  | nil => intro xs ys _ h; simp [strStartsWith] at h
  | cons p ps ih =>
    intro xs ys hlen h
    cases xs with
    | nil => simp at hlen
    | cons x xs =>
      simp only [List.cons_append, strStartsWith, Bool.and_eq_false_iff] at h ⊢
      rcases h with h | h
      · exact Or.inl h
      · exact Or.inr (ih xs ys (Nat.le_of_succ_le_succ hlen) h)

theorem statusPath_not_public (id : String) :
    isPublicPath (statusPath id) = false := by
  simp only [isPublicPath, statusPath, PUBLIC_PATHS, List.any_cons, List.any_nil,
    Bool.or_eq_false_iff]
  refine ⟨?_, ?_, ?_, ?_, ?_, ?_, ?_, trivial⟩ <;>
    exact strStartsWith_append_false _ _ _ (by decide) (by decide)

theorem resultsPath_not_public (id : String) :
    isPublicPath (resultsPath id) = false := by
  simp only [isPublicPath, resultsPath, PUBLIC_PATHS, List.any_cons, List.any_nil,
    Bool.or_eq_false_iff]
  refine ⟨?_, ?_, ?_, ?_, ?_, ?_, ?_, trivial⟩ <;>
    exact strStartsWith_append_false _ _ _ (by decide) (by decide)

theorem statusRequest_authed (verify : List Char → VerifyResult) (h : List Char)
    (c : AuthClaim) (store : JobStore) (id : String)
    (hB : strStartsWith h bearerMarker = true)
    (hv : verify (bearerToken h) = VerifyResult.ok c) :
    statusRequest verify (some h) store id = batchStatusGet store id := by
  simp [statusRequest, middlewareCheck, statusPath_not_public, hB, hv, getCurrentUser]

theorem resultsRequest_authed (verify : List Char → VerifyResult) (h : List Char)
    (c : AuthClaim) (store : JobStore) (id : String)
    (hB : strStartsWith h bearerMarker = true)
    (hv : verify (bearerToken h) = VerifyResult.ok c) :
    resultsRequest verify (some h) store id = batchResultsGet store id := by
  simp [resultsRequest, middlewareCheck, resultsPath_not_public, hB, hv, getCurrentUser]

theorem statusRequest_no_header (verify : List Char → VerifyResult)
    (store : JobStore) (id : String) :
    statusRequest verify none store id = .unauthorized "Missing or invalid token" := by
  simp [statusRequest, middlewareCheck, statusPath_not_public]

theorem resultsRequest_no_header (verify : List Char → VerifyResult)
    (store : JobStore) (id : String) :
    resultsRequest verify none store id = .unauthorized "Missing or invalid token" := by
  simp [resultsRequest, middlewareCheck, resultsPath_not_public]

theorem statusRequest_malformed_header (verify : List Char → VerifyResult)
    (h : List Char) (store : JobStore) (id : String)
    (hB : strStartsWith h bearerMarker = false) :
    statusRequest verify (some h) store id =
      .unauthorized "Missing or invalid token" := by
  simp [statusRequest, middlewareCheck, statusPath_not_public, hB]

theorem resultsRequest_malformed_header (verify : List Char → VerifyResult)
    (h : List Char) (store : JobStore) (id : String)
    (hB : strStartsWith h bearerMarker = false) :
    resultsRequest verify (some h) store id =
      .unauthorized "Missing or invalid token" := by
  simp [resultsRequest, middlewareCheck, resultsPath_not_public, hB]

theorem statusRequest_invalid_token (verify : List Char → VerifyResult)
    (h : List Char) (store : JobStore) (id : String)
    (hB : strStartsWith h bearerMarker = true)
    (hv : verify (bearerToken h) = VerifyResult.invalid) :
    statusRequest verify (some h) store id = .unauthorized "Invalid token" := by
  simp [statusRequest, middlewareCheck, statusPath_not_public, hB, hv]

theorem resultsRequest_invalid_token (verify : List Char → VerifyResult)
    (h : List Char) (store : JobStore) (id : String)
    (hB : strStartsWith h bearerMarker = true)
    (hv : verify (bearerToken h) = VerifyResult.invalid) :
    resultsRequest verify (some h) store id = .unauthorized "Invalid token" := by
  simp [resultsRequest, middlewareCheck, resultsPath_not_public, hB, hv]

theorem processedJob_create_ok {pred : Predictor} {ins : List RawInput}
    {rs : List ℚ} (t0 tEnd : Nat) (h : runBatchPrediction pred ins = Except.ok rs) :
    processedJob pred tEnd (Job.create t0 ins) =
      { status := .completed, results := rs, error := none, inputs := ins,
        created_at := t0, completed_at := some tEnd } := by
  unfold processedJob Job.create
  simp [h]

theorem processedJob_create_error {pred : Predictor} {ins : List RawInput}
    {e : String} (t0 tEnd : Nat) (h : runBatchPrediction pred ins = Except.error e) :
    processedJob pred tEnd (Job.create t0 ins) =
      { status := .failed, results := [], error := some e, inputs := ins,
        created_at := t0, completed_at := some tEnd } := by
  unfold processedJob Job.create
  simp [h]

/-- `pending` and `processing` rank below the two terminal states;
`completed` and `failed` are laterally incomparable but equally ranked. -/
def statusRank : JobStatus → Nat
  | .pending => 0
  | .processing => 1
  | .completed => 2
  | .failed => 2

/-- Whether a status is terminal. -/
def isTerminal : JobStatus → Bool
  | .completed => true
  | .failed => true
  | _ => false

/-! ## Claim theorems -/

/-- A fixed in-bounds input used by witnesses. -/
def sampleInput : RawInput :=
  { gre_score := 320, toefl_score := 110, university_rating := 4,
    sop := 4, lor := 4, cgpa := 9, research := 1 }

/-- A fixed out-of-bounds input (`gre_score` above 340) used by witnesses. -/
def badInput : RawInput :=
  { gre_score := 1000, toefl_score := 110, university_rating := 4,
    sop := 4, lor := 4, cgpa := 9, research := 1 }

/-- A fixed predictor used by witnesses. -/
def demoPred : Predictor := fun _ => Except.ok 1

/-- The terminal record of the witness job. -/
def demoJob : Job := processedJob demoPred 1 (Job.create 0 [sampleInput])

/-- Shared analysis of a completed trace member: its results come from a
successful `runBatchPrediction`, pair up with the inputs in order, and lie
in `[0, 1]`. -/
theorem trace_completed_spec {pred : Predictor} {t0 tEnd : Nat}
    {ins : List RawInput} {j : Job}
    (hj : j ∈ jobTrace pred t0 tEnd ins) (hc : j.status = JobStatus.completed) :
    j.results.length = j.inputs.length ∧ j.inputs = ins ∧
    (∀ i (h1 : i < j.inputs.length) (h2 : i < j.results.length),
      pred (j.inputs.get ⟨i, h1⟩) = Except.ok (j.results.get ⟨i, h2⟩)) ∧
    (∀ q ∈ j.results, 0 ≤ q ∧ q ≤ 1) := by
  simp only [jobTrace, List.mem_cons, List.not_mem_nil, or_false] at hj
  rcases hj with rfl | rfl | rfl
  · simp [Job.create] at hc
  · simp [Job.create] at hc
  · cases hr : runBatchPrediction pred ins with
    | error e => rw [processedJob_create_error t0 tEnd hr] at hc; simp at hc
    | ok rs =>
      rw [processedJob_create_ok t0 tEnd hr]
      obtain ⟨hlen, hget, hrange⟩ := runBatchPrediction_ok_spec hr
      exact ⟨hlen, rfl, hget, hrange⟩

/-- C1: for every job that reaches status `completed`, the stored results
sequence has exactly one prediction output per submitted input
(`len(results) == len(inputs)`), and output order matches input order:
output index `i` is the predictor's result for input index `i`. -/
theorem completed_results_match_inputs (pred : Predictor) (t0 tEnd : Nat)
    (ins : List RawInput) (j : Job)
    (hj : j ∈ jobTrace pred t0 tEnd ins) (hc : j.status = JobStatus.completed) :
    j.results.length = j.inputs.length ∧ j.inputs = ins ∧
    ∀ i (h1 : i < j.inputs.length) (h2 : i < j.results.length),
      pred (j.inputs.get ⟨i, h1⟩) = Except.ok (j.results.get ⟨i, h2⟩) := by
  obtain ⟨hlen, hins, hget, _⟩ := trace_completed_spec hj hc
  exact ⟨hlen, hins, hget⟩

theorem completed_results_match_inputs_witness :
    (demoJob ∈ jobTrace demoPred 0 1 [sampleInput] ∧
      demoJob.status = JobStatus.completed) ∧
    (demoJob.results.length = demoJob.inputs.length ∧ demoJob.inputs = [sampleInput] ∧
      ∀ i (h1 : i < demoJob.inputs.length) (h2 : i < demoJob.results.length),
        demoPred (demoJob.inputs.get ⟨i, h1⟩) = Except.ok (demoJob.results.get ⟨i, h2⟩)) :=
  ⟨⟨by decide, by decide⟩,
    completed_results_match_inputs demoPred 0 1 [sampleInput] demoJob
      (by decide) (by decide)⟩

/-- C2: along the write order of a job's record, the status only moves
forward along `pending → processing → {completed | failed}`: every later
snapshot ranks at least as high as every earlier one, and once a snapshot
is terminal every later snapshot is identical to it (in particular the
record never moves between `completed` and `failed`); hence repeated
polling never observes a status earlier than a previously observed one. -/
theorem job_status_monotonic (pred : Predictor) (t0 tEnd : Nat)
    (ins : List RawInput) :
    List.Pairwise
      (fun a b => statusRank a ≤ statusRank b ∧ (isTerminal a = true → b = a))
      ((jobTrace pred t0 tEnd ins).map Job.status) := by
  cases hr : runBatchPrediction pred ins with
  | error e =>
    rw [show jobTrace pred t0 tEnd ins =
      [Job.create t0 ins, { Job.create t0 ins with status := .processing },
        processedJob pred tEnd (Job.create t0 ins)] from rfl,
      processedJob_create_error t0 tEnd hr]
    simp [Job.create, List.pairwise_cons, statusRank, isTerminal]
  | ok rs =>
    rw [show jobTrace pred t0 tEnd ins =
      [Job.create t0 ins, { Job.create t0 ins with status := .processing },
        processedJob pred tEnd (Job.create t0 ins)] from rfl,
      processedJob_create_ok t0 tEnd hr]
    simp [Job.create, List.pairwise_cons, statusRank, isTerminal]

/-- C3: every reachable job record satisfies: the results sequence is
non-empty only when the status is `completed` (it is empty at `pending`,
`processing` and `failed` — a failed job never carries partial results),
and an error cause is recorded if and only if the status is `failed`. -/
theorem job_record_invariant (pred : Predictor) (t0 tEnd : Nat)
    (ins : List RawInput) (j : Job) (hj : j ∈ jobTrace pred t0 tEnd ins) :
    (j.results ≠ [] → j.status = JobStatus.completed) ∧
    (j.error.isSome ↔ j.status = JobStatus.failed) ∧
    (j.status = JobStatus.failed → j.results = []) := by
  simp only [jobTrace, List.mem_cons, List.not_mem_nil, or_false] at hj
  rcases hj with rfl | rfl | rfl
  · simp [Job.create]
  · simp [Job.create]
  · cases hr : runBatchPrediction pred ins with
    | error e => rw [processedJob_create_error t0 tEnd hr]; simp
    | ok rs => rw [processedJob_create_ok t0 tEnd hr]; simp

theorem job_record_invariant_witness :
    (demoJob ∈ jobTrace demoPred 0 1 [sampleInput]) ∧
    ((demoJob.results ≠ [] → demoJob.status = JobStatus.completed) ∧
      (demoJob.error.isSome ↔ demoJob.status = JobStatus.failed) ∧
      (demoJob.status = JobStatus.failed → demoJob.results = [])) :=
  ⟨by decide, job_record_invariant demoPred 0 1 [sampleInput] demoJob (by decide)⟩

/-- C4: batch submission accepts exactly the batches of size 1 to 1000
whose every input is within the field bounds; sizes 0 and 1001 are
rejected with a 400 client error and size 1000 is accepted; and whenever
validation fails, the response is a 400 and the job store is unchanged
(no job is created, no identifier allocated). -/
theorem batch_submit_validation (store : JobStore) (freshId : String) (t0 : Nat)
    (raws : List RawInput) :
    (isSubmitOk (batchSubmit store freshId t0 raws).1 =
      (decide (1 ≤ raws.length) && decide (raws.length ≤ 1000) && raws.all validInput)) ∧
    (isSubmitOk (batchSubmit store freshId t0 raws).1 = false →
      statusCode (batchSubmit store freshId t0 raws).1 = 400 ∧
      (batchSubmit store freshId t0 raws).2 = store) ∧
    isSubmitOk (batchSubmit store freshId t0 (List.replicate 1000 sampleInput)).1 = true ∧
    isSubmitOk (batchSubmit store freshId t0 (List.replicate 1001 sampleInput)).1 = false ∧
    isSubmitOk (batchSubmit store freshId t0 ([] : List RawInput)).1 = false := by
  have hrep : ∀ n : Nat, (List.replicate n sampleInput).all validInput = true := by
    intro n
    refine List.all_eq_true.mpr ?_
    intro x hx
    rcases List.eq_of_mem_replicate hx with rfl
    decide
  have hmain : ∀ rs : List RawInput,
      (isSubmitOk (batchSubmit store freshId t0 rs).1 =
        (decide (1 ≤ rs.length) && decide (rs.length ≤ 1000) && rs.all validInput)) ∧
      (isSubmitOk (batchSubmit store freshId t0 rs).1 = false →
        statusCode (batchSubmit store freshId t0 rs).1 = 400 ∧
        (batchSubmit store freshId t0 rs).2 = store) := by
    intro rs
    unfold batchSubmit validateBatch
    by_cases hall : rs.all validInput
    · by_cases h0 : rs.length = 0
      · simp [hall, h0, isSubmitOk, statusCode]
      · by_cases h1k : rs.length > 1000
        · simp [hall, h0, h1k, isSubmitOk, statusCode, Nat.not_le.mpr h1k]
        · have hle : rs.length ≤ 1000 := Nat.not_lt.mp h1k
          have h1 : 1 ≤ rs.length := Nat.one_le_iff_ne_zero.mpr h0
          simp [hall, h0, h1k, isSubmitOk, statusCode, hle, h1]
    · have hallf : rs.all validInput = false := Bool.eq_false_iff.mpr hall
      simp [hallf, isSubmitOk, statusCode]
  refine ⟨(hmain raws).1, (hmain raws).2, ?_, ?_, ?_⟩
  · rw [(hmain (List.replicate 1000 sampleInput)).1]
    simp only [List.length_replicate, hrep]
    decide
  · rw [(hmain (List.replicate 1001 sampleInput)).1]
    simp only [List.length_replicate, hrep]
    decide
  · rw [(hmain ([] : List RawInput)).1]
    decide

theorem batch_submit_validation_witness :
    statusCode (batchSubmit [] "job-1" 0 ([] : List RawInput)).1 = 400 ∧
    (batchSubmit [] "job-1" 0 ([] : List RawInput)).2 = [] :=
  (batch_submit_validation [] "job-1" 0 []).2.1 (by decide)

/-- C8 as stated is false: the single `/predict` endpoint
(`service_batch.py` lines 107-117) takes seven plain numeric parameters and
never constructs an `AdmissionInput`, so no field-bound validation happens
on that path.  An input with `gre_score = 1000` (far above the documented
bound of 340) is answered with a 200 prediction, not a 400 rejection. -/
theorem predict_bounds_cex :
    validInput badInput = false ∧
    predictEndpoint (fun _ => 1) badInput = HttpResponse.predictOk 1 ∧
    statusCode (predictEndpoint (fun _ => 1) badInput) = 200 ∧
    statusCode (predictEndpoint (fun _ => 1) badInput) ≠ 400 := by
  decide

/-- C8 amended: the field bounds are enforced on the batch path — a batch
containing any out-of-bounds input is rejected with a 400 and no job is
created — but the single `/predict` path performs no bounds validation:
for every input, in bounds or not, it returns a 200 response carrying the
raw predictor output. -/
theorem input_bounds_batch_only (pred1 : RawInput → ℚ) (r : RawInput)
    (store : JobStore) (freshId : String) (t0 : Nat) (raws : List RawInput)
    (hbad : ∃ b ∈ raws, validInput b = false) :
    predictEndpoint pred1 r = HttpResponse.predictOk (pred1 r) ∧
    statusCode (batchSubmit store freshId t0 raws).1 = 400 ∧
    (batchSubmit store freshId t0 raws).2 = store := by
  have hallf : raws.all validInput = false := by
    obtain ⟨b, hb, hvb⟩ := hbad
    refine Bool.eq_false_iff.mpr ?_
    intro hall
    have hvt := List.all_eq_true.mp hall b hb
    rw [hvb] at hvt
    exact Bool.false_ne_true hvt
  refine ⟨rfl, ?_, ?_⟩ <;>
    · unfold batchSubmit validateBatch
      simp [hallf, statusCode]

theorem input_bounds_batch_only_witness :
    (∃ b ∈ [badInput], validInput b = false) ∧
    (predictEndpoint (fun _ => 1) badInput = HttpResponse.predictOk 1 ∧
      statusCode (batchSubmit [] "job-1" 0 [badInput]).1 = 400 ∧
      (batchSubmit [] "job-1" 0 [badInput]).2 = []) :=
  ⟨⟨badInput, by decide, by decide⟩,
    input_bounds_batch_only (fun _ => 1) badInput [] "job-1" 0 [badInput]
      ⟨badInput, by decide, by decide⟩⟩

/-- C9 as stated is false for the single path: the `/predict` handler
returns `float(prediction[0])` with no `AdmissionOutput` validation and no
clamping, so a predictor output of 2 reaches the client as
`chance_of_admit = 2 ∉ [0, 1]`. -/
theorem prediction_output_bounds_cex :
    predictEndpoint (fun _ => 2) sampleInput = HttpResponse.predictOk 2 ∧
    ¬((2 : ℚ) ≤ 1) := by
  decide

/-- C9 amended: each `chance_of_admit` in the result sequence of every
completed batch job lies in `[0, 1]` (enforced by the `AdmissionOutput`
validation inside `process_batch_job`); the single `/predict` response
carries the raw predictor output unvalidated, so it lies in `[0, 1]` only
when the predictor's output does. -/
theorem prediction_output_bounds (pred : Predictor) (t0 tEnd : Nat)
    (ins : List RawInput) (j : Job)
    (hj : j ∈ jobTrace pred t0 tEnd ins) (hc : j.status = JobStatus.completed) :
    (∀ q ∈ j.results, 0 ≤ q ∧ q ≤ 1) ∧
    ∀ (pred1 : RawInput → ℚ) (r : RawInput),
      predictEndpoint pred1 r = HttpResponse.predictOk (pred1 r) := by
  obtain ⟨_, _, _, hrange⟩ := trace_completed_spec hj hc
  exact ⟨hrange, fun _ _ => rfl⟩

theorem prediction_output_bounds_witness :
    (demoJob ∈ jobTrace demoPred 0 1 [sampleInput] ∧
      demoJob.status = JobStatus.completed) ∧
    ((∀ q ∈ demoJob.results, 0 ≤ q ∧ q ≤ 1) ∧
      ∀ (pred1 : RawInput → ℚ) (r : RawInput),
        predictEndpoint pred1 r = HttpResponse.predictOk (pred1 r)) :=
  ⟨⟨by decide, by decide⟩,
    prediction_output_bounds demoPred 0 1 [sampleInput] demoJob
      (by decide) (by decide)⟩

/-- A fixed verifier used by witnesses: accepts every token as `admin`. -/
def demoVerify : List Char → VerifyResult :=
  fun _ => VerifyResult.ok { sub := "admin", exp := 100 }

/-- A fixed authorization header used by witnesses. -/
def demoHeader : List Char := "Bearer tok".toList

/-- C5: for every authenticated results query on a known job id, the
response is determined by the job's status: `pending`/`processing` yields
the distinguished 202 "still working" response (not an error), `failed`
yields a 500 carrying the recorded cause, `completed` yields a 200 with
the job id, status, full ordered result sequence, and a count equal to the
submitted input count. -/
theorem results_response_by_status (verify : List Char → VerifyResult)
    (h : List Char) (c : AuthClaim) (store : JobStore) (id : String) (j : Job)
    (hB : strStartsWith h bearerMarker = true)
    (hv : verify (bearerToken h) = VerifyResult.ok c)
    (hlook : lookupJob store id = some j)
    (hreach : ReachableJob j) :
    resultsRequest verify (some h) store id = batchResultsGet store id ∧
    ((j.status = JobStatus.pending ∨ j.status = JobStatus.processing) →
      batchResultsGet store id =
        HttpResponse.stillWorking id j.status "Job is still processing" ∧
      statusCode (batchResultsGet store id) = 202) ∧
    (j.status = JobStatus.failed →
      batchResultsGet store id =
        HttpResponse.jobFailed id JobStatus.failed (j.error.getD "Unknown error") ∧
      statusCode (batchResultsGet store id) = 500) ∧
    (j.status = JobStatus.completed →
      batchResultsGet store id =
        HttpResponse.resultsOk id JobStatus.completed j.results j.results.length ∧
      j.results.length = j.inputs.length ∧
      statusCode (batchResultsGet store id) = 200) := by
  refine ⟨resultsRequest_authed verify h c store id hB hv, ?_, ?_, ?_⟩
  · intro hs
    rcases hs with hs | hs <;>
      simp [batchResultsGet, hlook, hs, statusCode]
  · intro hs
    simp [batchResultsGet, hlook, hs, statusCode]
  · intro hs
    obtain ⟨pred, t0, tEnd, ins, hmem⟩ := hreach
    obtain ⟨hlen, _, _, _⟩ := trace_completed_spec hmem hs
    simp [batchResultsGet, hlook, hs, statusCode, hlen]

theorem results_response_by_status_witness :
    (strStartsWith demoHeader bearerMarker = true ∧
      demoVerify (bearerToken demoHeader) = VerifyResult.ok { sub := "admin", exp := 100 } ∧
      lookupJob [("j1", demoJob)] "j1" = some demoJob ∧
      ReachableJob demoJob) ∧
    (resultsRequest demoVerify (some demoHeader) [("j1", demoJob)] "j1" =
        batchResultsGet [("j1", demoJob)] "j1" ∧
      ((demoJob.status = JobStatus.pending ∨ demoJob.status = JobStatus.processing) →
        batchResultsGet [("j1", demoJob)] "j1" =
          HttpResponse.stillWorking "j1" demoJob.status "Job is still processing" ∧
        statusCode (batchResultsGet [("j1", demoJob)] "j1") = 202) ∧
      (demoJob.status = JobStatus.failed →
        batchResultsGet [("j1", demoJob)] "j1" =
          HttpResponse.jobFailed "j1" JobStatus.failed (demoJob.error.getD "Unknown error") ∧
        statusCode (batchResultsGet [("j1", demoJob)] "j1") = 500) ∧
      (demoJob.status = JobStatus.completed →
        batchResultsGet [("j1", demoJob)] "j1" =
          HttpResponse.resultsOk "j1" JobStatus.completed demoJob.results
            demoJob.results.length ∧
        demoJob.results.length = demoJob.inputs.length ∧
        statusCode (batchResultsGet [("j1", demoJob)] "j1") = 200)) :=
  ⟨⟨by decide, rfl, by decide, ⟨demoPred, 0, 1, [sampleInput], by decide⟩⟩,
    results_response_by_status demoVerify demoHeader { sub := "admin", exp := 100 }
      [("j1", demoJob)] "j1" demoJob (by decide) rfl (by decide)
      ⟨demoPred, 0, 1, [sampleInput], by decide⟩⟩

/-- C6: every request whose path starts with one of the exempt prefixes
bypasses token verification entirely (the middleware decision is `none`
for every verifier); on every other path, an absent header or one not of
the `Bearer <token>` form is rejected with a 401 before the verifier is
consulted (again for every verifier); otherwise the decision is exactly
the verifier's: expired → "Token expired" 401, invalid → "Invalid token"
401, verified → pass.  `verify_token` itself rejects a badly signed or
structurally invalid token, rejects an unexpired check failure, and
returns the claim exactly when the token is well signed and unexpired. -/
theorem auth_gate_behavior :
    (∀ (verify : List Char → VerifyResult) (path : List Char)
        (header : Option (List Char)),
      isPublicPath path = true → middlewareCheck verify path header = none) ∧
    (∀ (verify : List Char → VerifyResult) (path : List Char),
      isPublicPath path = false →
      middlewareCheck verify path none =
        some (HttpResponse.unauthorized "Missing or invalid token")) ∧
    (∀ (verify : List Char → VerifyResult) (path h : List Char),
      isPublicPath path = false → strStartsWith h bearerMarker = false →
      middlewareCheck verify path (some h) =
        some (HttpResponse.unauthorized "Missing or invalid token")) ∧
    (∀ (verify : List Char → VerifyResult) (path h : List Char),
      isPublicPath path = false → strStartsWith h bearerMarker = true →
      middlewareCheck verify path (some h) =
        match verify (bearerToken h) with
        | .ok _ => none
        | .expired => some (HttpResponse.unauthorized "Token expired")
        | .invalid => some (HttpResponse.unauthorized "Invalid token")) ∧
    (∀ (now : Nat) (t : TokenData),
      (t.sigValid = false → verify_token now t = VerifyResult.invalid) ∧
      (t.sigValid = true → t.exp ≤ now → verify_token now t = VerifyResult.expired) ∧
      (t.sigValid = true → now < t.exp →
        verify_token now t = VerifyResult.ok { sub := t.sub, exp := t.exp })) := by
  refine ⟨?_, ?_, ?_, ?_, ?_⟩
  · intro verify path header hp
    simp [middlewareCheck, hp]
  · intro verify path hp
    simp [middlewareCheck, hp]
  · intro verify path h hp hB
    simp [middlewareCheck, hp, hB]
  · intro verify path h hp hB
    simp only [middlewareCheck, hp, Bool.false_eq_true, if_false, hB, if_true]
  · intro now t
    refine ⟨?_, ?_, ?_⟩
    · intro hs
      simp [verify_token, hs]
    · intro hs he
      simp [verify_token, hs, he]
    · intro hs he
      simp [verify_token, hs, Nat.not_le.mpr he]

theorem auth_gate_behavior_witness :
    (isPublicPath "/docs/index".toList = true ∧
      middlewareCheck (fun _ => VerifyResult.invalid) "/docs/index".toList none = none) ∧
    (isPublicPath "/predict".toList = false ∧
      middlewareCheck (fun _ => VerifyResult.invalid) "/predict".toList none =
        some (HttpResponse.unauthorized "Missing or invalid token")) ∧
    (strStartsWith "Token abc".toList bearerMarker = false ∧
      middlewareCheck (fun _ => VerifyResult.invalid) "/predict".toList
          (some "Token abc".toList) =
        some (HttpResponse.unauthorized "Missing or invalid token")) ∧
    (strStartsWith demoHeader bearerMarker = true ∧
      middlewareCheck (fun _ => VerifyResult.expired) "/predict".toList
          (some demoHeader) =
        some (HttpResponse.unauthorized "Token expired")) ∧
    ((false : Bool) = false ∧
      verify_token 0 { sub := "admin", exp := 100, sigValid := false } =
        VerifyResult.invalid) :=
  ⟨⟨by decide, auth_gate_behavior.1 (fun _ => VerifyResult.invalid)
      "/docs/index".toList none (by decide)⟩,
    ⟨by decide, auth_gate_behavior.2.1 (fun _ => VerifyResult.invalid)
      "/predict".toList (by decide)⟩,
    ⟨by decide, auth_gate_behavior.2.2.1 (fun _ => VerifyResult.invalid)
      "/predict".toList "Token abc".toList (by decide) (by decide)⟩,
    ⟨by decide, auth_gate_behavior.2.2.2.1 (fun _ => VerifyResult.expired)
      "/predict".toList demoHeader (by decide) (by decide)⟩,
    ⟨rfl, (auth_gate_behavior.2.2.2.2 0
      { sub := "admin", exp := 100, sigValid := false }).1 rfl⟩⟩

/-- C7 as stated is false: both the ASGI middleware and the
`Depends(get_current_user)` dependency run before the handler, so a
status/results query for an unknown job id with missing authentication is
answered 401, not 404, and so is one whose bearer token fails
verification — the repository's own tests expect exactly this
(`test_endpoints.py`, `TestBatchStatus` `test_missing_jwt_returns_401`
targets `/batch/status/test-job-id`, an unknown id). -/
theorem unknown_job_auth_cex :
    lookupJob [] "no-such-job" = none ∧
    (statusRequest (fun _ => VerifyResult.invalid) none [] "no-such-job" =
        HttpResponse.unauthorized "Missing or invalid token" ∧
      statusCode
        (statusRequest (fun _ => VerifyResult.invalid) none [] "no-such-job") = 401 ∧
      statusRequest (fun _ => VerifyResult.invalid) none [] "no-such-job" ≠
        HttpResponse.notFound ∧
      resultsRequest (fun _ => VerifyResult.invalid) none [] "no-such-job" ≠
        HttpResponse.notFound) ∧
    (statusRequest (fun _ => VerifyResult.invalid) (some demoHeader) [] "no-such-job" =
        HttpResponse.unauthorized "Invalid token" ∧
      statusCode (statusRequest (fun _ => VerifyResult.invalid) (some demoHeader)
        [] "no-such-job") = 401 ∧
      statusRequest (fun _ => VerifyResult.invalid) (some demoHeader) [] "no-such-job" ≠
        HttpResponse.notFound ∧
      resultsRequest (fun _ => VerifyResult.invalid) (some demoHeader) [] "no-such-job" ≠
        HttpResponse.notFound) := by
  refine ⟨rfl, ⟨statusRequest_no_header _ _ _, ?_, ?_, ?_⟩,
    ⟨statusRequest_invalid_token _ _ _ _ (by decide) rfl, ?_, ?_, ?_⟩⟩
  · rw [statusRequest_no_header]
    rfl
  · rw [statusRequest_no_header]
    decide
  · rw [resultsRequest_no_header]
    decide
  · rw [statusRequest_invalid_token _ _ _ _ (by decide) rfl]
    rfl
  · rw [statusRequest_invalid_token _ _ _ _ (by decide) rfl]
    decide
  · rw [resultsRequest_invalid_token _ _ _ _ (by decide) rfl]
    decide

/-- C7 amended: for requests whose bearer token verifies, querying batch
status or batch results for a job identifier absent from the store yields
the 404 not-found response (whatever the token's claim is); with missing
or invalid authentication the same queries are instead rejected 401
regardless of job existence: a missing or malformed (non-`Bearer`) header
yields the 401 "Missing or invalid token" response and a token that fails
verification yields the 401 "Invalid token" response. -/
theorem unknown_job_not_found (verify : List Char → VerifyResult)
    (h : List Char) (c : AuthClaim) (store : JobStore) (id : String)
    (hB : strStartsWith h bearerMarker = true)
    (hv : verify (bearerToken h) = VerifyResult.ok c)
    (hlook : lookupJob store id = none) :
    statusRequest verify (some h) store id = HttpResponse.notFound ∧
    resultsRequest verify (some h) store id = HttpResponse.notFound ∧
    statusCode HttpResponse.notFound = 404 ∧
    (∀ (verify2 : List Char → VerifyResult) (store2 : JobStore) (id2 : String),
      statusRequest verify2 none store2 id2 =
        HttpResponse.unauthorized "Missing or invalid token" ∧
      resultsRequest verify2 none store2 id2 =
        HttpResponse.unauthorized "Missing or invalid token") ∧
    (∀ (verify2 : List Char → VerifyResult) (h2 : List Char)
        (store2 : JobStore) (id2 : String),
      strStartsWith h2 bearerMarker = false →
      statusRequest verify2 (some h2) store2 id2 =
        HttpResponse.unauthorized "Missing or invalid token" ∧
      resultsRequest verify2 (some h2) store2 id2 =
        HttpResponse.unauthorized "Missing or invalid token") ∧
    (∀ (verify2 : List Char → VerifyResult) (h2 : List Char)
        (store2 : JobStore) (id2 : String),
      strStartsWith h2 bearerMarker = true →
      verify2 (bearerToken h2) = VerifyResult.invalid →
      statusRequest verify2 (some h2) store2 id2 =
        HttpResponse.unauthorized "Invalid token" ∧
      resultsRequest verify2 (some h2) store2 id2 =
        HttpResponse.unauthorized "Invalid token") ∧
    statusCode (HttpResponse.unauthorized "Missing or invalid token") = 401 ∧
    statusCode (HttpResponse.unauthorized "Invalid token") = 401 := by
  refine ⟨?_, ?_, rfl,
    fun verify2 store2 id2 =>
      ⟨statusRequest_no_header verify2 store2 id2,
       resultsRequest_no_header verify2 store2 id2⟩,
    fun verify2 h2 store2 id2 hB2 =>
      ⟨statusRequest_malformed_header verify2 h2 store2 id2 hB2,
       resultsRequest_malformed_header verify2 h2 store2 id2 hB2⟩,
    fun verify2 h2 store2 id2 hB2 hv2 =>
      ⟨statusRequest_invalid_token verify2 h2 store2 id2 hB2 hv2,
       resultsRequest_invalid_token verify2 h2 store2 id2 hB2 hv2⟩,
    rfl, rfl⟩
  · rw [statusRequest_authed verify h c store id hB hv]
    simp [batchStatusGet, hlook]
  · rw [resultsRequest_authed verify h c store id hB hv]
    simp [batchResultsGet, hlook]

theorem unknown_job_not_found_witness :
    (strStartsWith demoHeader bearerMarker = true ∧
      demoVerify (bearerToken demoHeader) =
        VerifyResult.ok { sub := "admin", exp := 100 } ∧
      lookupJob [] "no-such-job" = none) ∧
    (statusRequest demoVerify (some demoHeader) [] "no-such-job" =
        HttpResponse.notFound ∧
      resultsRequest demoVerify (some demoHeader) [] "no-such-job" =
        HttpResponse.notFound ∧
      statusCode HttpResponse.notFound = 404 ∧
      (∀ (verify2 : List Char → VerifyResult) (store2 : JobStore) (id2 : String),
        statusRequest verify2 none store2 id2 =
          HttpResponse.unauthorized "Missing or invalid token" ∧
        resultsRequest verify2 none store2 id2 =
          HttpResponse.unauthorized "Missing or invalid token") ∧
      (∀ (verify2 : List Char → VerifyResult) (h2 : List Char)
          (store2 : JobStore) (id2 : String),
        strStartsWith h2 bearerMarker = false →
        statusRequest verify2 (some h2) store2 id2 =
          HttpResponse.unauthorized "Missing or invalid token" ∧
        resultsRequest verify2 (some h2) store2 id2 =
          HttpResponse.unauthorized "Missing or invalid token") ∧
      (∀ (verify2 : List Char → VerifyResult) (h2 : List Char)
          (store2 : JobStore) (id2 : String),
        strStartsWith h2 bearerMarker = true →
        verify2 (bearerToken h2) = VerifyResult.invalid →
        statusRequest verify2 (some h2) store2 id2 =
          HttpResponse.unauthorized "Invalid token" ∧
        resultsRequest verify2 (some h2) store2 id2 =
          HttpResponse.unauthorized "Invalid token") ∧
      statusCode (HttpResponse.unauthorized "Missing or invalid token") = 401 ∧
      statusCode (HttpResponse.unauthorized "Invalid token") = 401) :=
  ⟨⟨by decide, rfl, rfl⟩,
    unknown_job_not_found demoVerify demoHeader { sub := "admin", exp := 100 }
      [] "no-such-job" (by decide) rfl rfl⟩

/-- Extracts whether a verification outcome lets the request through. -/
def VerifyResult.isAccept : VerifyResult → Bool
  | .ok _ => true
  | _ => false

theorem verify_match_congr (now : Nat) (t t2 : TokenData)
    (he : t.exp = t2.exp) (hs : t.sigValid = t2.sigValid) :
    (match verify_token now t with
      | .ok _ => (none : Option HttpResponse)
      | .expired => some (HttpResponse.unauthorized "Token expired")
      | .invalid => some (HttpResponse.unauthorized "Invalid token")) =
    (match verify_token now t2 with
      | .ok _ => none
      | .expired => some (HttpResponse.unauthorized "Token expired")
      | .invalid => some (HttpResponse.unauthorized "Invalid token")) := by
  unfold verify_token
  rw [he, hs]
  by_cases h1 : t2.sigValid = false
  · simp [h1]
  · by_cases h2 : t2.exp ≤ now <;> simp [h1, h2]

/-- C10: the authorization decision for a protected request depends only
on the token's signature validity and expiry, never on the subject claim:
for any two decodings of the request's token that agree on `exp` and on
signature validity but may disagree on `sub`, the middleware reaches the
same decision; acceptance equals "well signed and unexpired" regardless of
subject; and a correctly signed, unexpired token whose subject differs
from the single configured identity (`API_USERNAME = "admin"`) is
accepted. -/
theorem auth_ignores_subject (now : Nat) (path : List Char)
    (header : Option (List Char)) (decode decode2 : List Char → TokenData)
    (hexp : ∀ tok, (decode tok).exp = (decode2 tok).exp)
    (hsig : ∀ tok, (decode tok).sigValid = (decode2 tok).sigValid) :
    middlewareCheck (fun tok => verify_token now (decode tok)) path header =
      middlewareCheck (fun tok => verify_token now (decode2 tok)) path header ∧
    (∀ (sub sub2 : String) (e : Nat) (g : Bool),
      (verify_token now { sub := sub, exp := e, sigValid := g }).isAccept =
        (verify_token now { sub := sub2, exp := e, sigValid := g }).isAccept) ∧
    (∀ (sub : String) (e : Nat) (g : Bool),
      (verify_token now { sub := sub, exp := e, sigValid := g }).isAccept =
        (g && decide (now < e))) ∧
    ((verify_token 0 { sub := "not-admin", exp := 1, sigValid := true }).isAccept =
        true ∧
      "not-admin" ≠ API_USERNAME) := by
  have hacc : ∀ (sub : String) (e : Nat) (g : Bool),
      (verify_token now { sub := sub, exp := e, sigValid := g }).isAccept =
        (g && decide (now < e)) := by
    intro sub e g
    cases g
    · simp [verify_token, VerifyResult.isAccept]
    · by_cases h2 : e ≤ now
      · simp [verify_token, VerifyResult.isAccept, h2, Nat.not_lt.mpr h2]
      · simp [verify_token, VerifyResult.isAccept, h2, Nat.not_le.mp h2]
  refine ⟨?_, fun sub sub2 e g => (hacc sub e g).trans (hacc sub2 e g).symm,
    hacc, by decide, by decide⟩
  unfold middlewareCheck
  by_cases hp : isPublicPath path
  · simp [hp]
  · cases header with
    | none => rfl
    | some h =>
      by_cases hB : strStartsWith h bearerMarker
      · simp only [hp, Bool.false_eq_true, if_false, hB, if_true]
        exact verify_match_congr now (decode (bearerToken h))
          (decode2 (bearerToken h)) (hexp _) (hsig _)
      · simp [hp, hB]

/-- A fixed decoding for the C10 witness: every token reads as Alice's. -/
def demoDecodeA : List Char → TokenData := fun _ => TokenData.mk "alice" 100 true

/-- A fixed decoding for the C10 witness: every token reads as Bob's. -/
def demoDecodeB : List Char → TokenData := fun _ => TokenData.mk "bob" 100 true

theorem auth_ignores_subject_witness :
    (∀ tok, (demoDecodeA tok).exp = (demoDecodeB tok).exp) ∧
    (∀ tok, (demoDecodeA tok).sigValid = (demoDecodeB tok).sigValid) ∧
    middlewareCheck (fun tok => verify_token 0 (demoDecodeA tok))
        "/predict".toList (some demoHeader) =
      middlewareCheck (fun tok => verify_token 0 (demoDecodeB tok))
        "/predict".toList (some demoHeader) :=
  ⟨fun _ => rfl, fun _ => rfl,
    (auth_ignores_subject 0 "/predict".toList (some demoHeader)
      demoDecodeA demoDecodeB (fun _ => rfl) (fun _ => rfl)).1⟩
